import Mathlib

/-! Verification development for the "City Explorer" game-based-learning
repository: a shallow Lean embedding of the repository's code (the Explore
page state and handlers, the `LocationService` geo functions and the mockup
XP formula) together with a model of the server-side discovery pipeline
that the repository's design documents describe, plus theorems about them.
-/

set_option maxHeartbeats 1000000

namespace UI

/-- The `Landmark` interface of `src/pages/Explore.tsx`:
`{ id, name, x, y, discovered, category, year, metersAway }`.
TypeScript `number` fields are modelled as `ℚ` (ids, which are integer
literals, as `ℕ`). -/
structure Landmark where
  id : Nat
  name : String
  x : ℚ
  y : ℚ
  discovered : Bool
  category : String
  year : String
  metersAway : ℚ
deriving DecidableEq, Repr

/-- The initial landmark list of `WatercolorAtlasExplore`
(`useState` initializer in `Explore.tsx`). -/
def initialLandmarks : List Landmark :=
  [ { id := 1, name := "Nidaros Cathedral", x := 10, y := 50, discovered := true,
      category := "Historic", year := "1070", metersAway := 100 },
    { id := 2, name := "Kristiansten Fortress", x := 89, y := 45, discovered := true,
      category := "Military", year := "1681", metersAway := 300 },
    { id := 3, name := "Old Town Bridge", x := 62, y := 14, discovered := false,
      category := "Architecture", year := "1861", metersAway := 50 },
    { id := 4, name := "Rockheim Museum", x := 30, y := 60, discovered := false,
      category := "Culture", year := "2010", metersAway := 125 },
    { id := 5, name := "Stiftsgården", x := 7, y := 39, discovered := false,
      category := "Royal", year := "1778", metersAway := 500 } ]

/-- The `setLandmarks` update performed by `handleDiscoveryComplete` in
`Explore.tsx`: `prevLandmarks.map(l => l.id === landmarkId ? { ...l, discovered: true } : l)`. -/
def handleDiscoveryComplete (landmarkId : Nat) (ls : List Landmark) : List Landmark :=
  ls.map (fun landmark =>
    if landmark.id = landmarkId then { landmark with discovered := true } else landmark)

/-- The React state of `WatercolorAtlasExplore` (the seven `useState` hooks
of `Explore.tsx`). -/
structure ExploreState where
  landmarks : List Landmark
  selectedLandmark : Option Landmark
  showScanner : Bool
  landmarkToScan : Option Landmark
  showDetail : Bool
  landmarkToShow : Option Landmark
  showMuseum : Bool
deriving DecidableEq, Repr

/-- The initial component state. -/
def initialState : ExploreState :=
  { landmarks := initialLandmarks
    selectedLandmark := none
    showScanner := false
    landmarkToScan := none
    showDetail := false
    landmarkToShow := none
    showMuseum := false }

/-- `launchScanner` in `Explore.tsx`: sets `landmarkToScan`, shows the
scanner, clears the selection. -/
def launchScanner (l : Landmark) (s : ExploreState) : ExploreState :=
  { s with landmarkToScan := some l, showScanner := true, selectedLandmark := none }

/-- The full state effect of `handleDiscoveryComplete` in `Explore.tsx`:
updates the landmark list and closes the scanner. -/
def discoveryCompleteState (landmarkId : Nat) (s : ExploreState) : ExploreState :=
  { s with
    landmarks := handleDiscoveryComplete landmarkId s.landmarks
    showScanner := false
    landmarkToScan := none }

/-- The `onClick` handler of the floating AR camera button in `Explore.tsx`:
`const undiscovered = landmarks.find(l => !l.discovered); if (undiscovered) launchScanner(undiscovered);`. -/
def arCameraClick (s : ExploreState) : ExploreState :=
  match s.landmarks.find? (fun l => !l.discovered) with
  | some l => launchScanner l s
  | none => s

/-- All landmarks on the map are discovered. -/
def allDiscovered (ls : List Landmark) : Prop :=
  ∀ l ∈ ls, l.discovered = true

instance (ls : List Landmark) : Decidable (allDiscovered ls) := by
  unfold allDiscovered; infer_instance

/-- One user interaction on the Explore page, as wired up in `Explore.tsx`.
Map-level interactions require the scanner modal to be closed (it overlays
the page); `discoveryComplete` is the scanner's callback and requires the
scanner to be open on the landmark being completed. -/
inductive Step : ExploreState → ExploreState → Prop
  | select (s : ExploreState) (l : Landmark) :
      s.showScanner = false → l ∈ s.landmarks →
      Step s { s with selectedLandmark := some l }
  | deselect (s : ExploreState) :
      Step s { s with selectedLandmark := none }
  | scanFromCard (s : ExploreState) (l : Landmark) :
      s.showScanner = false → s.selectedLandmark = some l → l.discovered = false →
      Step s (launchScanner l s)
  | arClick (s : ExploreState) :
      s.showScanner = false →
      Step s (arCameraClick s)
  | discoveryComplete (s : ExploreState) (l : Landmark) :
      s.showScanner = true → s.landmarkToScan = some l →
      Step s (discoveryCompleteState l.id s)
  | closeScanner (s : ExploreState) :
      Step s { s with showScanner := false, landmarkToScan := none }
  | openDetail (s : ExploreState) (l : Landmark) :
      s.showScanner = false → s.selectedLandmark = some l → l.discovered = true →
      Step s { s with landmarkToShow := some l, showDetail := true }
  | closeDetail (s : ExploreState) :
      Step s { s with showDetail := false, landmarkToShow := none }
  | openMuseum (s : ExploreState) :
      s.showScanner = false →
      Step s { s with showMuseum := true }
  | closeMuseum (s : ExploreState) :
      Step s { s with showMuseum := false }

/-- States of the Explore page reachable from its initial state. -/
inductive Reachable : ExploreState → Prop
  | init : Reachable initialState
  | step {s s' : ExploreState} : Reachable s → Step s s' → Reachable s'

/-- The scanner/selection invariant of the Explore page: while the scanner
modal is open no landmark is selected, any selected landmark is on the
map, and once every landmark is discovered the scanner is closed. -/
def scannerInv (s : ExploreState) : Prop :=
  (s.showScanner = true → s.selectedLandmark = none) ∧
  (∀ l, s.selectedLandmark = some l → l ∈ s.landmarks) ∧
  (allDiscovered s.landmarks → s.showScanner = false)

/-- The third landmark of the initial list (the first undiscovered one). -/
def oldTownBridge : Landmark :=
  { id := 3, name := "Old Town Bridge", x := 62, y := 14, discovered := false,
    category := "Architecture", year := "1861", metersAway := 50 }

/-- The fourth landmark of the initial list. -/
def rockheimMuseum : Landmark :=
  { id := 4, name := "Rockheim Museum", x := 30, y := 60, discovered := false,
    category := "Culture", year := "2010", metersAway := 125 }

/-- The fifth landmark of the initial list. -/
def stiftsgaarden : Landmark :=
  { id := 5, name := "Stiftsgården", x := 7, y := 39, discovered := false,
    category := "Royal", year := "1778", metersAway := 500 }

/-- A concrete interaction run that discovers the three remaining
landmarks through the floating AR camera button. -/
def demoFinal : ExploreState :=
  discoveryCompleteState 5 (arCameraClick (discoveryCompleteState 4 (arCameraClick
    (discoveryCompleteState 3 (arCameraClick initialState)))))

end UI

namespace Mock

/-- The mockup's client-side XP formula (Discovery Scanner usage guide,
"XP Calculation"): `const xp = Math.floor(Math.random() * 50) + 50;`.
The draw `r` of `Math.random()` ranges over `[0, 1)`; it is modelled as a
rational (every IEEE double in `[0,1)` is a rational). -/
def mockXp (r : ℚ) : ℤ :=
  ⌊r * 50⌋ + 50

end Mock

namespace Core

/-- Modelled from the spec: the landmark difficulty levels
(`'easy' | 'medium' | 'hard'` in the Landmark Model of the API
integration spec). -/
inductive Difficulty
  | easy
  | medium
  | hard
deriving DecidableEq, Repr

/-- Modelled from the spec: the landmark reference data the server core
reads (identity, registered location, discovery radius, difficulty, base
XP reward, badge identifiers). The server core itself is absent from the
repository; only its design documents describe it. -/
structure Landmark where
  id : Nat
  lat : ℚ
  lon : ℚ
  discoveryRadius : ℚ
  difficulty : Difficulty
  xpReward : ℚ
  badges : List Nat
deriving DecidableEq, Repr

/-- Modelled from the spec: a `DiscoverySubmission` (user identity,
landmark identity, claimed location + GPS accuracy, recognition confidence
score, claimed device timestamp, idempotency token). Times are in seconds,
coordinates and scores in `ℚ`. -/
structure Submission where
  userId : String
  landmarkId : Nat
  lat : ℚ
  lon : ℚ
  accuracy : ℚ
  confidence : ℚ
  timestamp : ℤ
  idempotencyToken : String
deriving DecidableEq, Repr

/-- Modelled from the spec: the rejection reasons of `submitDiscovery`. -/
inductive RejectReason
  | too_far
  | low_confidence
  | rate_limited
  | cooldown
  | implausible_timing
  | implausible_travel
deriving DecidableEq, Repr

/-- Modelled from the spec: the payload of a `Completed` outcome. -/
structure Completion where
  xpDelta : ℚ
  totalXp : ℚ
  leveledUp : Bool
  newLevel : Nat
  badgesAwarded : List Nat
  isFirstGlobalDiscovery : Bool
  rankAmongDiscoverers : Nat
deriving DecidableEq, Repr

/-- Modelled from the spec: the outcome of `submitDiscovery`
(`Rejected`, `Completed` or `Failed`). -/
inductive Outcome
  | rejected (reason : RejectReason)
  | completed (c : Completion)
  | failed (cause : String)
deriving DecidableEq, Repr

/-- Whether an outcome is a `completed` success. -/
def Outcome.isCompleted : Outcome → Bool
  | .completed _ => true
  | _ => false

/-- Modelled from the spec: a persisted `DiscoveryRecord`
(user, landmark, discoveredAt, verificationMethod, confidenceAtDiscovery),
extended with the completion it produced so that an idempotent replay can
return the original figures. -/
structure LedgerEntry where
  userId : String
  landmarkId : Nat
  discoveredAt : ℤ
  verificationMethod : String
  confidenceAtDiscovery : ℚ
  result : Completion
deriving DecidableEq, Repr

/-- Modelled from the spec: the durable server state — the discovery
ledger, per-user progress (XP, badges), the anti-abuse tracking state
(last accepted submission per (user, landmark), recent accepted times,
last accepted location per user) and per-landmark discoverer lists.
Maps are association lists where the most recent binding wins. -/
structure SysState where
  ledger : List LedgerEntry
  xp : List (String × ℚ)
  badges : List (String × List Nat)
  lastSub : List ((String × Nat) × ℤ)
  recent : List (String × List ℤ)
  lastLoc : List (String × (ℚ × ℚ × ℤ))
  discoverers : List (Nat × List String)
deriving DecidableEq, Repr

/-- The empty server state. -/
def SysState.empty : SysState :=
  { ledger := [], xp := [], badges := [], lastSub := [], recent := [],
    lastLoc := [], discoverers := [] }

/-- Modelled from the spec: the configuration and external collaborators
of the pipeline — the landmark catalog, the great-circle distance oracle,
the GPS slack factor `k` (default 1), per-difficulty confidence
thresholds, the anti-abuse parameters and the first-discovery bonus. -/
structure Env where
  catalog : Nat → Option Landmark
  distance : ℚ → ℚ → ℚ → ℚ → ℚ
  slack : ℚ
  threshold : Difficulty → ℚ
  cooldownPeriod : ℤ
  rateWindow : ℤ
  rateCap : Nat
  timingTolerance : ℤ
  maxSpeed : ℚ
  firstDiscoveryBonus : ℚ

/-- First-binding lookup in an association list. -/
def lookupAssoc {α β : Type} [BEq α] (l : List (α × β)) (k : α) : Option β :=
  (l.find? (fun p => p.1 == k)).map (fun p => p.2)

/-- The ledger's record for a (user, landmark) pair, if any. -/
def ledgerLookup (st : SysState) (u : String) (m : Nat) : Option LedgerEntry :=
  st.ledger.find? (fun e => e.userId == u && e.landmarkId == m)

/-- How many ledger records exist for a (user, landmark) pair. -/
def countRecords (st : SysState) (u : String) (m : Nat) : Nat :=
  (st.ledger.filter (fun e => e.userId == u && e.landmarkId == m)).length

/-- Modelled from the spec: the level curve — a monotonic step function of
cumulative XP, `level = floor(sqrt(totalXp / 100)) + 1`. -/
def levelOf (xp : ℚ) : Nat :=
  Nat.sqrt (⌊xp / 100⌋).toNat + 1

/-- Modelled from the spec: the cooldown rule — the submission falls
within `cooldownPeriod` of the last accepted submission for the same
(user, landmark). -/
def cooldownHit (env : Env) (st : SysState) (sub : Submission) (now : ℤ) : Bool :=
  match lookupAssoc st.lastSub (sub.userId, sub.landmarkId) with
  | some t => decide (now - t < env.cooldownPeriod)
  | none => false

/-- Modelled from the spec: the rate-limit rule — accepted submissions in
the trailing window exceed the cap. -/
def rateHit (env : Env) (st : SysState) (sub : Submission) (now : ℤ) : Bool :=
  let times := (lookupAssoc st.recent sub.userId).getD []
  decide (env.rateCap < (times.filter (fun t => decide (now - t < env.rateWindow))).length)

/-- Modelled from the spec: the timing-plausibility rule — the claimed
device timestamp deviates from server receipt time by more than the
tolerance. -/
def timingHit (env : Env) (sub : Submission) (now : ℤ) : Bool :=
  decide (env.timingTolerance < |sub.timestamp - now|)

/-- Modelled from the spec: the teleport-detection rule — distance from
the previous accepted discovery location exceeds the maximum plausible
travel speed times the elapsed time. -/
def travelHit (env : Env) (st : SysState) (sub : Submission) (now : ℤ) : Bool :=
  match lookupAssoc st.lastLoc sub.userId with
  | some prev =>
      decide (env.maxSpeed * ((now - prev.2.2 : ℤ) : ℚ) <
        env.distance prev.1 prev.2.1 sub.lat sub.lon)
  | none => false

/-- Result of the read-only checking phase of the pipeline. -/
inductive CheckResult
  | fault (cause : String)
  | reject (reason : RejectReason)
  | pass
deriving DecidableEq, Repr

/-- Modelled from the spec: the read-only checking phase of the
coordinator pipeline — malformed-input validation (a `Fault`, before any
verification rule), then GeoVerifier, RecognitionGate and the
AntiAbuseGuard rules in order, first failure winning. -/
def checkPhase (env : Env) (st : SysState) (sub : Submission) (now : ℤ) : CheckResult :=
  if sub.confidence < 0 ∨ 1 < sub.confidence then .fault "confidence_out_of_range"
  else
    match env.catalog sub.landmarkId with
    | none => .fault "unknown_landmark"
    | some lm =>
      if ¬ (env.distance sub.lat sub.lon lm.lat lm.lon ≤
          lm.discoveryRadius + env.slack * sub.accuracy) then .reject .too_far
      else if sub.confidence < env.threshold lm.difficulty then .reject .low_confidence
      else if cooldownHit env st sub now then .reject .cooldown
      else if rateHit env st sub now then .reject .rate_limited
      else if timingHit env sub now then .reject .implausible_timing
      else if travelHit env st sub now then .reject .implausible_travel
      else .pass

/-- Modelled from the spec: the atomic commit phase — the ledger's
conditional insert (`recordIfAbsent`): a racing loser finds the winning
record and receives the original completion unchanged (a no-op); otherwise
the reward calculator and leaderboard index run inside the transaction and
the record is inserted. Level is recomputed from the new total XP, never
incremented. -/
def commitPhase (env : Env) (st : SysState) (sub : Submission) (now : ℤ) : Outcome × SysState :=
  match env.catalog sub.landmarkId with
  | none => (.failed "unknown_landmark", st)
  | some lm =>
    match ledgerLookup st sub.userId sub.landmarkId with
    | some e => (.completed e.result, st)
    | none =>
      let prior := (lookupAssoc st.discoverers lm.id).getD []
      let isFirst := prior.isEmpty
      let oldXp := (lookupAssoc st.xp sub.userId).getD 0
      let mult : ℚ := match lm.difficulty with
        | .easy => 1
        | .medium => 3 / 2
        | .hard => 2
      let delta := lm.xpReward * mult + (if isFirst then env.firstDiscoveryBonus else 0)
      let newXp := oldXp + delta
      let owned := (lookupAssoc st.badges sub.userId).getD []
      let awarded := lm.badges.filter (fun b => !(owned.contains b))
      let comp : Completion :=
        { xpDelta := delta
          totalXp := newXp
          leveledUp := decide (levelOf oldXp < levelOf newXp)
          newLevel := levelOf newXp
          badgesAwarded := awarded
          isFirstGlobalDiscovery := isFirst
          rankAmongDiscoverers := prior.length + 1 }
      let entry : LedgerEntry :=
        { userId := sub.userId
          landmarkId := sub.landmarkId
          discoveredAt := now
          verificationMethod := "scan"
          confidenceAtDiscovery := sub.confidence
          result := comp }
      (.completed comp,
        { ledger := entry :: st.ledger
          xp := (sub.userId, newXp) :: st.xp
          badges := (sub.userId, owned ++ awarded) :: st.badges
          lastSub := ((sub.userId, sub.landmarkId), now) :: st.lastSub
          recent := (sub.userId, now :: (lookupAssoc st.recent sub.userId).getD []) :: st.recent
          lastLoc := (sub.userId, (sub.lat, sub.lon, now)) :: st.lastLoc
          discoverers := (lm.id, prior ++ [sub.userId]) :: st.discoverers })

/-- Modelled from the spec: `submitDiscovery` — the sequential submission
transaction: checks, then the atomic commit; a check failure
short-circuits and mutates nothing. -/
def submitDiscovery (env : Env) (st : SysState) (sub : Submission) (now : ℤ) :
    Outcome × SysState :=
  match checkPhase env st sub now with
  | .fault c => (.failed c, st)
  | .reject r => (.rejected r, st)
  | .pass => commitPhase env st sub now

/-- Modelled from the spec's concurrency model: the read-only checks of
concurrently arriving submissions run in parallel against the snapshot
`st0`, while the atomic commit sections serialize in some order. -/
def runConcurrentFrom (env : Env) (st0 : SysState) (now : ℤ) :
    SysState → List Submission → List Outcome × SysState
  | st, [] => ([], st)
  | st, sub :: rest =>
    let step : Outcome × SysState :=
      match checkPhase env st0 sub now with
      | .fault c => (.failed c, st)
      | .reject r => (.rejected r, st)
      | .pass => commitPhase env st sub now
    let tail := runConcurrentFrom env st0 now step.2 rest
    (step.1 :: tail.1, tail.2)

/-- Modelled from the spec: a batch of concurrent submissions — snapshot
checks against the arrival state, serialized commits. -/
def runConcurrent (env : Env) (st0 : SysState) (subs : List Submission) (now : ℤ) :
    List Outcome × SysState :=
  runConcurrentFrom env st0 now st0 subs

/-- A ledger is well-formed when every stored completion carries the level
recomputed from its own total XP (the shape every freshly committed
completion has). -/
def WellFormedLedger (st : SysState) : Prop :=
  ∀ e ∈ st.ledger, e.result.newLevel = levelOf e.result.totalXp

/-- A concrete landmark for instantiating the pipeline. -/
def demoLandmark : Landmark :=
  { id := 1, lat := 0, lon := 0, discoveryRadius := 100, difficulty := .easy,
    xpReward := 50, badges := [7] }

/-- A concrete environment with the spec's default configuration
(slack 1, cooldown 30 s, window 60 s, cap 10, tolerance 120 s,
300 km/h = 250/3 m/s, first-discovery bonus 25) and a trivial distance
oracle. -/
def demoEnv : Env :=
  { catalog := fun i => if i = 1 then some demoLandmark else none
    distance := fun _ _ _ _ => 0
    slack := 1
    threshold := fun _ => 7 / 10
    cooldownPeriod := 30
    rateWindow := 60
    rateCap := 10
    timingTolerance := 120
    maxSpeed := 250 / 3
    firstDiscoveryBonus := 25 }

/-- A concrete well-formed submission for the demo landmark. -/
def demoSub : Submission :=
  { userId := "alice", landmarkId := 1, lat := 0, lon := 0, accuracy := 5,
    confidence := 9 / 10, timestamp := 0, idempotencyToken := "tok1" }

end Core

namespace Geo

open Real

/-- JavaScript's `Math.atan2`, as used by `LocationService.calculateDistance`
in the API integration spec, on real arguments. -/
noncomputable def atan2 (y x : ℝ) : ℝ :=
  if 0 < x then arctan (y / x)
  else if x < 0 then
    (if 0 ≤ y then arctan (y / x) + π else arctan (y / x) - π)
  else
    (if 0 < y then π / 2 else if y < 0 then -(π / 2) else 0)

/-- `LocationService.calculateDistance` from the API integration spec:
the haversine great-circle distance in meters on a sphere of radius
`R = 6371e3`, with degree inputs converted to radians. The JavaScript
floating-point arithmetic is modelled over `ℝ`. -/
noncomputable def calculateDistance (lat1 lon1 lat2 lon2 : ℝ) : ℝ :=
  let R : ℝ := 6371000
  let phi1 := lat1 * π / 180
  let phi2 := lat2 * π / 180
  let dphi := (lat2 - lat1) * π / 180
  let dlam := (lon2 - lon1) * π / 180
  let a := Real.sin (dphi / 2) * Real.sin (dphi / 2) +
    Real.cos phi1 * Real.cos phi2 * Real.sin (dlam / 2) * Real.sin (dlam / 2)
  let c := 2 * atan2 (Real.sqrt a) (Real.sqrt (1 - a))
  R * c

/-- `LocationService.isWithinRange` from the API integration spec:
accepts exactly when the haversine distance is at most `maxDistance`
(the landmark's `discoveryRadius`; 100 by default). It takes no GPS
accuracy argument. -/
def isWithinRange (userLat userLon landmarkLat landmarkLon maxDistance : ℝ) : Prop :=
  calculateDistance userLat userLon landmarkLat landmarkLon ≤ maxDistance

/-- The geo acceptance rule as the natural-language spec words it
(for comparison with `isWithinRange`): `isNearby` holds iff
`distanceMeters ≤ landmark.discoveryRadius + k·claimedAccuracy`. -/
def isNearbySpec (distanceMeters discoveryRadius claimedAccuracy k : ℝ) : Prop :=
  distanceMeters ≤ discoveryRadius + k * claimedAccuracy

/-- The longitude (in degrees) of the point on the equator exactly `d`
meters east of the origin along the great circle, for the sphere radius
used by `calculateDistance`. -/
noncomputable def lonForMeters (d : ℝ) : ℝ :=
  d * 180 / (6371000 * π)

/-- On the equator, `calculateDistance` evaluates exactly:
the distance from `(0, 0)` to `(0, lonForMeters d)` is `d`, for moderate
positive `d`. -/
theorem calculateDistance_equator (d : ℝ) (h0 : 0 < d) (h1 : d ≤ 1000000) :
    calculateDistance 0 0 0 (lonForMeters d) = d := by
  have hpi : (0 : ℝ) < π := Real.pi_pos
  have hpi3 : (3 : ℝ) < π := Real.pi_gt_three
  set t : ℝ := d / 12742000 with ht
  have htpos : 0 < t := by positivity
  have htle : t ≤ 1000000 / 12742000 := by
    rw [ht]
    gcongr
  have htlt : t < π / 2 := by nlinarith
  have hsin : 0 ≤ Real.sin t :=
    Real.sin_nonneg_of_nonneg_of_le_pi htpos.le (by nlinarith)
  have hcos : 0 < Real.cos t := Real.cos_pos_of_mem_Ioo ⟨by nlinarith, htlt⟩
  have hs : lonForMeters d * π / 180 / 2 = t := by
    rw [lonForMeters, ht]
    field_simp
    ring
  simp only [calculateDistance, lonForMeters]
  rw [show ((0 : ℝ) - 0) * π / 180 = 0 by ring]
  rw [show (0 : ℝ) * π / 180 = 0 by ring]
  rw [show d * 180 / (6371000 * π) - 0 = d * 180 / (6371000 * π) by ring]
  rw [show d * 180 / (6371000 * π) * π / 180 / 2 = t by
    rw [← hs, lonForMeters]]
  rw [show (0 : ℝ) / 2 = 0 by ring]
  rw [Real.sin_zero, Real.cos_zero]
  rw [show (0 : ℝ) * 0 + 1 * 1 * Real.sin t * Real.sin t = Real.sin t * Real.sin t
    by ring]
  rw [Real.sqrt_mul_self hsin]
  rw [show 1 - Real.sin t * Real.sin t = Real.cos t * Real.cos t by
    have hpc := Real.sin_sq_add_cos_sq t
    nlinarith]
  rw [Real.sqrt_mul_self hcos.le]
  rw [atan2, if_pos hcos]
  rw [← Real.tan_eq_sin_div_cos]
  rw [Real.arctan_tan (by nlinarith) htlt]
  rw [ht]
  field_simp
  ring

end Geo

/-- C5: `calculateDistance` (the haversine great-circle distance on the
spherical Earth model of radius 6,371,000 m) is symmetric under swapping
the two points, and returns 0 when the two points coincide. -/
theorem claim_C5_distance_symm_zero :
    (∀ lat1 lon1 lat2 lon2 : ℝ,
      Geo.calculateDistance lat1 lon1 lat2 lon2 = Geo.calculateDistance lat2 lon2 lat1 lon1) ∧
    (∀ lat lon : ℝ, Geo.calculateDistance lat lon lat lon = 0) := by
  constructor
  · intro lat1 lon1 lat2 lon2
    simp only [Geo.calculateDistance]
    have e1 : (lat1 - lat2) * Real.pi / 180 / 2 = -((lat2 - lat1) * Real.pi / 180 / 2) := by
      ring
    have e2 : (lon1 - lon2) * Real.pi / 180 / 2 = -((lon2 - lon1) * Real.pi / 180 / 2) := by
      ring
    rw [e1, e2, Real.sin_neg, Real.sin_neg]
    ring_nf
  · intro lat lon
    simp only [Geo.calculateDistance]
    rw [show (lat - lat) * Real.pi / 180 = 0 by ring,
      show (lon - lon) * Real.pi / 180 = 0 by ring,
      show (0 : ℝ) / 2 = 0 by ring, Real.sin_zero]
    rw [show (0 : ℝ) * 0 + Real.cos (lat * Real.pi / 180) * Real.cos (lat * Real.pi / 180) * 0 * 0
        = 0 by ring]
    rw [Real.sqrt_zero, show (1 : ℝ) - 0 = 1 by ring, Real.sqrt_one]
    rw [Geo.atan2, if_pos one_pos, show (0 : ℝ) / 1 = 0 by ring, Real.arctan_zero]
    ring

/-- C8 counterexample: the mockup's XP formula
`Math.floor(Math.random() * 50) + 50` can never produce 100 — no draw in
`[0, 1)` attains it, refuting the claim that every integer in 50–100
(including 100) is attainable. -/
theorem claim_C8_counterexample :
    ¬ ∃ r : ℚ, 0 ≤ r ∧ r < 1 ∧ Mock.mockXp r = 100 := by
  rintro ⟨r, _, h1, hx⟩
  have hfe : ⌊r * 50⌋ = 50 := by
    have : ⌊r * 50⌋ + 50 = 100 := hx
    omega
  have h50 : (50 : ℚ) ≤ r * 50 := by
    have := Int.le_floor.1 hfe.ge
    exact_mod_cast this
  linarith

/-- C8 (amended): for every draw `r` of `Math.random()` in `[0, 1)`, the
mockup's XP `Math.floor(r * 50) + 50` lies between 50 and 99, and every
integer in 50–99 is attainable for some draw. -/
theorem claim_C8_amended :
    (∀ r : ℚ, 0 ≤ r → r < 1 → 50 ≤ Mock.mockXp r ∧ Mock.mockXp r ≤ 99) ∧
    (∀ n : ℤ, 50 ≤ n → n ≤ 99 →
      0 ≤ ((n : ℚ) - 50) / 50 ∧ ((n : ℚ) - 50) / 50 < 1 ∧
      Mock.mockXp (((n : ℚ) - 50) / 50) = n) := by
  constructor
  · intro r h0 h1
    unfold Mock.mockXp
    have hlo : (0 : ℤ) ≤ ⌊r * 50⌋ := Int.le_floor.2 (by push_cast; nlinarith)
    have hhi : ⌊r * 50⌋ < 50 := Int.floor_lt.2 (by push_cast; nlinarith)
    omega
  · intro n h50 h99
    refine ⟨?_, ?_, ?_⟩
    · have hnum : (0 : ℚ) ≤ ((n : ℚ) - 50) := by
        have : (50 : ℚ) ≤ (n : ℚ) := by exact_mod_cast h50
        linarith
      exact div_nonneg hnum (by norm_num)
    · rw [div_lt_one (by norm_num : (0 : ℚ) < 50)]
      have : (n : ℚ) ≤ 99 := by exact_mod_cast h99
      linarith
    · unfold Mock.mockXp
      rw [div_mul_cancel₀ _ (by norm_num : (50 : ℚ) ≠ 0)]
      rw [show ((n : ℚ) - 50) = ((n - 50 : ℤ) : ℚ) by push_cast; ring]
      rw [Int.floor_intCast]
      ring

/-- C8 witness: the amended bounds at the concrete draw 1/2, and
attainability of the concrete value 99 by the concrete draw 49/50. -/
theorem claim_C8_witness :
    (50 ≤ Mock.mockXp (1 / 2) ∧ Mock.mockXp (1 / 2) ≤ 99) ∧
    Mock.mockXp (49 / 50) = 99 := by
  refine ⟨claim_C8_amended.1 (1 / 2) (by norm_num) (by norm_num), ?_⟩
  have h := (claim_C8_amended.2 99 (by norm_num) (by norm_num)).2.2
  norm_num at h
  exact h

/-- C2 counterexample: at the concrete claim 120 m from a landmark of
radius 100 m, with claimed GPS accuracy 30 m and slack factor `k = 1`,
the spec's rule `distance ≤ radius + k·accuracy` accepts (120 ≤ 130), but
the code's geo check `isWithinRange` rejects — the code compares the
distance with `maxDistance` alone and ignores the accuracy, so the claimed
biconditional fails here. -/
theorem claim_C2_counterexample :
    ¬ Geo.isWithinRange 0 0 0 (Geo.lonForMeters 120) 100 ∧
    Geo.isNearbySpec (Geo.calculateDistance 0 0 0 (Geo.lonForMeters 120)) 100 30 1 := by
  have h := Geo.calculateDistance_equator 120 (by norm_num) (by norm_num)
  constructor
  · simp only [Geo.isWithinRange, h]
    norm_num
  · simp only [Geo.isNearbySpec, h]
    norm_num

/-- C2 (amended): the repository's geo check `isWithinRange` accepts
exactly when the haversine distance is at most `maxDistance` (the
landmark's discovery radius; claimed GPS accuracy plays no role).
With radius 100 m: a claim 99 m away is accepted, a claim 150 m away is
rejected, and a claim 120 m away is rejected regardless of its 30 m
accuracy. -/
theorem claim_C2_amended :
    (∀ userLat userLon landmarkLat landmarkLon maxDistance : ℝ,
      Geo.isWithinRange userLat userLon landmarkLat landmarkLon maxDistance ↔
        Geo.calculateDistance userLat userLon landmarkLat landmarkLon ≤ maxDistance) ∧
    Geo.calculateDistance 0 0 0 (Geo.lonForMeters 99) = 99 ∧
    Geo.isWithinRange 0 0 0 (Geo.lonForMeters 99) 100 ∧
    Geo.calculateDistance 0 0 0 (Geo.lonForMeters 150) = 150 ∧
    ¬ Geo.isWithinRange 0 0 0 (Geo.lonForMeters 150) 100 ∧
    Geo.calculateDistance 0 0 0 (Geo.lonForMeters 120) = 120 ∧
    ¬ Geo.isWithinRange 0 0 0 (Geo.lonForMeters 120) 100 := by
  have h99 := Geo.calculateDistance_equator 99 (by norm_num) (by norm_num)
  have h150 := Geo.calculateDistance_equator 150 (by norm_num) (by norm_num)
  have h120 := Geo.calculateDistance_equator 120 (by norm_num) (by norm_num)
  refine ⟨fun _ _ _ _ _ => Iff.rfl, h99, ?_, h150, ?_, h120, ?_⟩ <;>
    simp only [Geo.isWithinRange, h99, h150, h120] <;> norm_num

/-- C7: a submission whose recognition confidence lies outside [0, 1] is
rejected as malformed input — a Fault, not a Rejection — before any
verification rule runs: for every environment and every state the outcome
is the same `failed` fault and the state is untouched, so the confidence
is never silently clamped into range. -/
theorem claim_C7_confidence_fault :
    ∀ (env : Core.Env) (st : Core.SysState) (sub : Core.Submission) (now : ℤ),
      (sub.confidence < 0 ∨ 1 < sub.confidence) →
      Core.submitDiscovery env st sub now =
        (Core.Outcome.failed "confidence_out_of_range", st) := by
  intro env st sub now h
  unfold Core.submitDiscovery Core.checkPhase
  rw [if_pos h]

/-- C7 witness: a concrete submission with confidence 3/2 is faulted and
mutates nothing. -/
theorem claim_C7_witness :
    Core.submitDiscovery Core.demoEnv Core.SysState.empty
        { Core.demoSub with confidence := 3 / 2 } 0 =
      (Core.Outcome.failed "confidence_out_of_range", Core.SysState.empty) :=
  claim_C7_confidence_fault Core.demoEnv Core.SysState.empty
    { Core.demoSub with confidence := 3 / 2 } 0 (Or.inr (by norm_num))

/-- C4: the level is a pure monotone function of total XP
(`levelOf = floor(sqrt(totalXp / 100)) + 1`), and `submitDiscovery`
always reports a level recomputed from the completion's own total XP —
it preserves ledger well-formedness and every completion it returns
satisfies `newLevel = levelOf totalXp`. -/
theorem claim_C4_level_monotone :
    (∀ x y : ℚ, x ≤ y → Core.levelOf x ≤ Core.levelOf y) ∧
    (∀ (env : Core.Env) (st : Core.SysState) (sub : Core.Submission) (now : ℤ),
      Core.WellFormedLedger st →
      Core.WellFormedLedger (Core.submitDiscovery env st sub now).2 ∧
      ∀ c, (Core.submitDiscovery env st sub now).1 = Core.Outcome.completed c →
        c.newLevel = Core.levelOf c.totalXp) := by
  constructor
  · intro x y hxy
    unfold Core.levelOf
    have h0 : x / 100 ≤ y / 100 := by linarith
    have h1 : ⌊x / 100⌋ ≤ ⌊y / 100⌋ := Int.floor_le_floor h0
    have h2 : (⌊x / 100⌋).toNat ≤ (⌊y / 100⌋).toNat := Int.toNat_le_toNat h1
    exact Nat.add_le_add_right (Nat.sqrt_le_sqrt h2) 1
  · intro env st sub now hwf
    unfold Core.submitDiscovery
    cases hcp : Core.checkPhase env st sub now with
    | fault c =>
      exact ⟨hwf, fun c' hc' => by simp at hc'⟩
    | reject r =>
      exact ⟨hwf, fun c' hc' => by simp at hc'⟩
    | pass =>
      unfold Core.commitPhase
      cases hcat : env.catalog sub.landmarkId with
      | none =>
        exact ⟨hwf, fun c' hc' => by simp at hc'⟩
      | some lm =>
        cases hlk : Core.ledgerLookup st sub.userId sub.landmarkId with
        | some e =>
          refine ⟨hwf, fun c hc => ?_⟩
          have he : e ∈ st.ledger := List.mem_of_find?_eq_some hlk
          have hres := hwf e he
          simp only [Core.Outcome.completed.injEq] at hc
          rw [← hc]
          exact hres
        | none =>
          constructor
          · intro e' he'
            rcases List.mem_cons.1 he' with h | h
            · rw [h]
            · exact hwf e' h
          · intro c hc
            simp only [Core.Outcome.completed.injEq] at hc
            rw [← hc]

/-- C4 witness: level monotonicity at 150 ≤ 1000, and well-formedness
preservation for a concrete accepted submission from the empty state. -/
theorem claim_C4_witness :
    Core.levelOf 150 ≤ Core.levelOf 1000 ∧
    Core.WellFormedLedger
      (Core.submitDiscovery Core.demoEnv Core.SysState.empty Core.demoSub 0).2 :=
  ⟨claim_C4_level_monotone.1 150 1000 (by norm_num),
   (claim_C4_level_monotone.2 Core.demoEnv Core.SysState.empty Core.demoSub 0
     (fun e he => by simp [Core.SysState.empty] at he)).1⟩

/-- The atomic commit phase never produces a `rejected` outcome — all
verification rejections happen in the checking phase. -/
theorem commitPhase_not_rejected :
    ∀ (env : Core.Env) (st : Core.SysState) (sub : Core.Submission) (now : ℤ)
      (r : Core.RejectReason),
      (Core.commitPhase env st sub now).1 ≠ Core.Outcome.rejected r := by
  intro env st sub now r
  unfold Core.commitPhase
  cases hcat : env.catalog sub.landmarkId with
  | none => simp
  | some lm =>
    cases hlk : Core.ledgerLookup st sub.userId sub.landmarkId with
    | some e => simp
    | none => simp

/-- Inversion of a passing check phase: the malformed-input, geo and
recognition conditions must all have held. -/
theorem checkPhase_pass_parts (env : Core.Env) (st : Core.SysState) (sub : Core.Submission)
    (now : ℤ) (lm : Core.Landmark)
    (hcat : env.catalog sub.landmarkId = some lm)
    (h : Core.checkPhase env st sub now = Core.CheckResult.pass) :
    ¬(sub.confidence < 0 ∨ 1 < sub.confidence) ∧
    env.distance sub.lat sub.lon lm.lat lm.lon ≤
      lm.discoveryRadius + env.slack * sub.accuracy ∧
    ¬(sub.confidence < env.threshold lm.difficulty) := by
  simp only [Core.checkPhase, hcat] at h
  by_cases h0 : sub.confidence < 0 ∨ 1 < sub.confidence
  · rw [if_pos h0] at h
    simp at h
  · rw [if_neg h0] at h
    by_cases h1 : ¬(env.distance sub.lat sub.lon lm.lat lm.lon ≤
        lm.discoveryRadius + env.slack * sub.accuracy)
    · rw [if_pos h1] at h
      simp at h
    · rw [if_neg h1] at h
      push_neg at h1
      by_cases h2 : sub.confidence < env.threshold lm.difficulty
      · rw [if_pos h2] at h
        simp at h
      · exact ⟨h0, h1, h2⟩

/-- When the malformed-input, geo and recognition conditions hold, the
check phase reduces to the anti-abuse rules evaluated in spec order. -/
theorem checkPhase_guards (env : Core.Env) (st : Core.SysState) (sub : Core.Submission)
    (now : ℤ) (lm : Core.Landmark)
    (hcat : env.catalog sub.landmarkId = some lm)
    (h0 : ¬(sub.confidence < 0 ∨ 1 < sub.confidence))
    (hgeo : env.distance sub.lat sub.lon lm.lat lm.lon ≤
      lm.discoveryRadius + env.slack * sub.accuracy)
    (hthr : ¬(sub.confidence < env.threshold lm.difficulty)) :
    Core.checkPhase env st sub now =
      (if Core.cooldownHit env st sub now = true then
        Core.CheckResult.reject Core.RejectReason.cooldown
       else if Core.rateHit env st sub now = true then
        Core.CheckResult.reject Core.RejectReason.rate_limited
       else if Core.timingHit env sub now = true then
        Core.CheckResult.reject Core.RejectReason.implausible_timing
       else if Core.travelHit env st sub now = true then
        Core.CheckResult.reject Core.RejectReason.implausible_travel
       else Core.CheckResult.pass) := by
  simp only [Core.checkPhase, hcat]
  rw [if_neg h0, if_neg (not_not_intro hgeo), if_neg hthr]

/-- A fresh commit (record absent) inserts exactly one record for the
pair — afterwards the lookup finds an entry whose stored completion is the
returned outcome — and stamps the accepted-submission time. -/
theorem commitPhase_fresh (env : Core.Env) (st : Core.SysState) (sub : Core.Submission)
    (now : ℤ) (lm : Core.Landmark)
    (hcat : env.catalog sub.landmarkId = some lm)
    (hlk : Core.ledgerLookup st sub.userId sub.landmarkId = none) :
    (∃ e : Core.LedgerEntry,
      e.userId = sub.userId ∧ e.landmarkId = sub.landmarkId ∧
      Core.ledgerLookup (Core.commitPhase env st sub now).2 sub.userId sub.landmarkId =
        some e ∧
      (Core.commitPhase env st sub now).1 = Core.Outcome.completed e.result ∧
      (Core.commitPhase env st sub now).2.ledger = e :: st.ledger) ∧
    (Core.commitPhase env st sub now).2.lastSub =
      ((sub.userId, sub.landmarkId), now) :: st.lastSub := by
  simp only [Core.commitPhase, hcat, hlk]
  refine ⟨⟨⟨sub.userId, sub.landmarkId, now, "scan", sub.confidence, _⟩,
    rfl, rfl, ?_, rfl, rfl⟩, trivial⟩
  unfold Core.ledgerLookup
  rw [List.find?_cons_of_pos _ (by simp)]

/-- C3 (amended): once a (user, landmark) pair has a DiscoveryRecord,
resubmitting never credits anything a second time — the state is returned
unchanged whatever the outcome — and whenever the resubmission passes the
verification checks (in particular once the cooldown has elapsed) it is a
success carrying exactly the original completion figures, independent of
the idempotency token and re-running no reward logic. -/
theorem claim_C3_replay :
    ∀ (env : Core.Env) (st : Core.SysState) (sub : Core.Submission) (now : ℤ)
      (e : Core.LedgerEntry),
      Core.ledgerLookup st sub.userId sub.landmarkId = some e →
      (Core.submitDiscovery env st sub now).2 = st ∧
      (Core.checkPhase env st sub now = Core.CheckResult.pass →
        (Core.submitDiscovery env st sub now).1 = Core.Outcome.completed e.result) := by
  intro env st sub now e hlk
  constructor
  · unfold Core.submitDiscovery
    cases hcp : Core.checkPhase env st sub now with
    | fault c => rfl
    | reject r => rfl
    | pass =>
      unfold Core.commitPhase
      cases hcat : env.catalog sub.landmarkId with
      | none => rfl
      | some lm =>
        rw [hlk]
  · intro hpass
    unfold Core.submitDiscovery
    rw [hpass]
    unfold Core.commitPhase
    cases hcat : env.catalog sub.landmarkId with
    | none =>
      exfalso
      simp only [Core.checkPhase, hcat] at hpass
      by_cases hc : sub.confidence < 0 ∨ 1 < sub.confidence
      · rw [if_pos hc] at hpass
        simp at hpass
      · rw [if_neg hc] at hpass
        simp at hpass
    | some lm =>
      rw [hlk]

/-- C3 counterexample: under the spec's pipeline order (anti-abuse guards
gate before the ledger), a concrete resubmission 10 s after its original
completion — a pair that already has a DiscoveryRecord — is rejected with
`cooldown` rather than being a success, refuting the unqualified claim. -/
theorem claim_C3_counterexample :
    (Core.ledgerLookup (Core.submitDiscovery Core.demoEnv Core.SysState.empty
        Core.demoSub 0).2 Core.demoSub.userId Core.demoSub.landmarkId).isSome = true ∧
    (Core.submitDiscovery Core.demoEnv
        (Core.submitDiscovery Core.demoEnv Core.SysState.empty Core.demoSub 0).2
        Core.demoSub 10).1 =
      Core.Outcome.rejected Core.RejectReason.cooldown := by
  constructor
  · norm_num [Core.submitDiscovery, Core.checkPhase, Core.commitPhase, Core.cooldownHit,
      Core.rateHit, Core.timingHit, Core.travelHit, Core.lookupAssoc, Core.ledgerLookup,
      Core.demoEnv, Core.demoSub, Core.demoLandmark, Core.SysState.empty, List.find?]
  · norm_num [Core.submitDiscovery, Core.checkPhase, Core.commitPhase, Core.cooldownHit,
      Core.rateHit, Core.timingHit, Core.travelHit, Core.lookupAssoc, Core.ledgerLookup,
      Core.demoEnv, Core.demoSub, Core.demoLandmark, Core.SysState.empty, List.find?]

/-- C3 witness: replaying a concrete completed submission 40 s later,
with a different idempotency token, returns exactly the original outcome
and leaves the state unchanged. -/
theorem claim_C3_witness :
    Core.submitDiscovery Core.demoEnv
        (Core.submitDiscovery Core.demoEnv Core.SysState.empty Core.demoSub 0).2
        { Core.demoSub with idempotencyToken := "tok2" } 40 =
      ((Core.submitDiscovery Core.demoEnv Core.SysState.empty Core.demoSub 0).1,
       (Core.submitDiscovery Core.demoEnv Core.SysState.empty Core.demoSub 0).2) := by
  have hpass0 : Core.checkPhase Core.demoEnv Core.SysState.empty Core.demoSub 0 =
      Core.CheckResult.pass := by
    norm_num [Core.checkPhase, Core.cooldownHit, Core.rateHit, Core.timingHit,
      Core.travelHit, Core.lookupAssoc, Core.demoEnv, Core.demoSub, Core.demoLandmark,
      Core.SysState.empty, List.find?]
  have hsub0 : Core.submitDiscovery Core.demoEnv Core.SysState.empty Core.demoSub 0 =
      Core.commitPhase Core.demoEnv Core.SysState.empty Core.demoSub 0 := by
    unfold Core.submitDiscovery
    rw [hpass0]
  obtain ⟨⟨e, _, _, he, hout, _⟩, _⟩ := commitPhase_fresh Core.demoEnv Core.SysState.empty
    Core.demoSub 0 Core.demoLandmark (by norm_num [Core.demoEnv, Core.demoSub]) rfl
  rw [hsub0]
  have h := claim_C3_replay Core.demoEnv
    (Core.commitPhase Core.demoEnv Core.SysState.empty Core.demoSub 0).2
    { Core.demoSub with idempotencyToken := "tok2" } 40 e he
  refine Prod.ext ?_ h.1
  rw [h.2 ?_, hout]
  norm_num [Core.checkPhase, Core.commitPhase, Core.cooldownHit, Core.rateHit,
    Core.timingHit, Core.travelHit, Core.lookupAssoc, Core.ledgerLookup,
    Core.demoEnv, Core.demoSub, Core.demoLandmark, Core.SysState.empty, List.find?]

/-- C6: under the malformed/geo/recognition checks passing, a submission
is rejected with reason `cooldown` exactly when
`now - lastSubmissionAt < cooldownPeriod` for the same (user, landmark)
pair; concretely, after an accepted submission at time `t0`, the same
submission resubmitted 10 s later is rejected with `cooldown`, while
35 s later (default cooldown 30 s) it succeeds provided the remaining
guard checks pass. -/
theorem claim_C6_cooldown :
    (∀ (env : Core.Env) (st : Core.SysState) (sub : Core.Submission) (now t : ℤ)
      (lm : Core.Landmark),
      0 ≤ sub.confidence → sub.confidence ≤ 1 →
      env.catalog sub.landmarkId = some lm →
      env.distance sub.lat sub.lon lm.lat lm.lon ≤
        lm.discoveryRadius + env.slack * sub.accuracy →
      env.threshold lm.difficulty ≤ sub.confidence →
      Core.lookupAssoc st.lastSub (sub.userId, sub.landmarkId) = some t →
      ((Core.submitDiscovery env st sub now).1 =
          Core.Outcome.rejected Core.RejectReason.cooldown ↔
        now - t < env.cooldownPeriod)) ∧
    (∀ (env : Core.Env) (st : Core.SysState) (sub : Core.Submission) (t0 : ℤ)
      (lm : Core.Landmark),
      env.cooldownPeriod = 30 →
      env.catalog sub.landmarkId = some lm →
      Core.checkPhase env st sub t0 = Core.CheckResult.pass →
      Core.ledgerLookup st sub.userId sub.landmarkId = none →
      (Core.submitDiscovery env (Core.submitDiscovery env st sub t0).2 sub (t0 + 10)).1 =
        Core.Outcome.rejected Core.RejectReason.cooldown ∧
      (Core.rateHit env (Core.submitDiscovery env st sub t0).2 sub (t0 + 35) = false →
       Core.timingHit env sub (t0 + 35) = false →
       Core.travelHit env (Core.submitDiscovery env st sub t0).2 sub (t0 + 35) = false →
       ∃ c, (Core.submitDiscovery env (Core.submitDiscovery env st sub t0).2 sub
          (t0 + 35)).1 = Core.Outcome.completed c)) := by
  constructor
  · intro env st sub now t lm hc0 hc1 hcat hgeo hthr hlast
    have h0 : ¬(sub.confidence < 0 ∨ 1 < sub.confidence) := by
      rw [not_or]
      exact ⟨not_lt.2 hc0, not_lt.2 hc1⟩
    have hg := checkPhase_guards env st sub now lm hcat h0 hgeo (not_lt.2 hthr)
    constructor
    · intro hout
      by_contra hcd
      push_neg at hcd
      have hch : Core.cooldownHit env st sub now = false := by
        unfold Core.cooldownHit
        rw [hlast]
        simp only [decide_eq_false_iff_not, not_lt]
        exact hcd
      unfold Core.submitDiscovery at hout
      rw [hg, hch] at hout
      simp only [Bool.false_eq_true, if_false] at hout
      cases hr : Core.rateHit env st sub now with
      | true =>
        rw [hr] at hout
        simp at hout
      | false =>
        rw [hr] at hout
        simp only [Bool.false_eq_true, if_false] at hout
        cases hti : Core.timingHit env sub now with
        | true =>
          rw [hti] at hout
          simp at hout
        | false =>
          rw [hti] at hout
          simp only [Bool.false_eq_true, if_false] at hout
          cases htr : Core.travelHit env st sub now with
          | true =>
            rw [htr] at hout
            simp at hout
          | false =>
            rw [htr] at hout
            simp only [Bool.false_eq_true, if_false] at hout
            exact absurd hout (commitPhase_not_rejected env st sub now _)
    · intro hlt
      have hch : Core.cooldownHit env st sub now = true := by
        unfold Core.cooldownHit
        rw [hlast]
        simpa using hlt
      unfold Core.submitDiscovery
      rw [hg, hch]
      simp
  · intro env st sub t0 lm hcd30 hcat hpass hlk
    obtain ⟨h0, hgeo, hthr⟩ := checkPhase_pass_parts env st sub t0 lm hcat hpass
    obtain ⟨⟨e, _, _, he, _, _⟩, hlast⟩ := commitPhase_fresh env st sub t0 lm hcat hlk
    have hsub0 : Core.submitDiscovery env st sub t0 = Core.commitPhase env st sub t0 := by
      unfold Core.submitDiscovery
      rw [hpass]
    rw [hsub0]
    set st1 := (Core.commitPhase env st sub t0).2 with hst1
    have hcdhit : ∀ now : ℤ,
        Core.cooldownHit env st1 sub now = decide (now - t0 < env.cooldownPeriod) := by
      intro now
      unfold Core.cooldownHit Core.lookupAssoc
      rw [hlast, List.find?_cons_of_pos _ (by simp)]
      simp
    constructor
    · have hc : Core.cooldownHit env st1 sub (t0 + 10) = true := by
        rw [hcdhit]
        simp only [decide_eq_true_eq]
        omega
      have hg := checkPhase_guards env st1 sub (t0 + 10) lm hcat h0 hgeo hthr
      unfold Core.submitDiscovery
      rw [hg, hc]
      simp
    · intro hrate htime htravel
      have hc : Core.cooldownHit env st1 sub (t0 + 35) = false := by
        rw [hcdhit]
        simp only [decide_eq_false_iff_not, not_lt]
        omega
      have hg := checkPhase_guards env st1 sub (t0 + 35) lm hcat h0 hgeo hthr
      refine ⟨e.result, ?_⟩
      unfold Core.submitDiscovery
      rw [hg, hc, hrate, htime, htravel]
      simp only [Bool.false_eq_true, if_false]
      simp only [Core.commitPhase, hcat, he]

/-- C6 witness: with the default configuration, a concrete submission
10 s after the last accepted one for the same landmark is rejected with
`cooldown`; after a completed submission at time 0, resubmitting at 10 s
is rejected with `cooldown` and resubmitting at 35 s succeeds. -/
theorem claim_C6_witness :
    ((Core.submitDiscovery Core.demoEnv
        { Core.SysState.empty with lastSub := [(("alice", 1), 0)] } Core.demoSub 10).1 =
      Core.Outcome.rejected Core.RejectReason.cooldown) ∧
    ((Core.submitDiscovery Core.demoEnv
        (Core.submitDiscovery Core.demoEnv Core.SysState.empty Core.demoSub 0).2
        Core.demoSub (0 + 10)).1 = Core.Outcome.rejected Core.RejectReason.cooldown) ∧
    ((Core.submitDiscovery Core.demoEnv
        (Core.submitDiscovery Core.demoEnv Core.SysState.empty Core.demoSub 0).2
        Core.demoSub (0 + 35)).1.isCompleted = true) := by
  have hscen := claim_C6_cooldown.2 Core.demoEnv Core.SysState.empty Core.demoSub 0
    Core.demoLandmark rfl
    (by norm_num [Core.demoEnv, Core.demoSub])
    (by norm_num [Core.checkPhase, Core.cooldownHit, Core.rateHit, Core.timingHit,
      Core.travelHit, Core.lookupAssoc, Core.demoEnv, Core.demoSub, Core.demoLandmark,
      Core.SysState.empty, List.find?])
    rfl
  obtain ⟨c, hc⟩ := hscen.2
    (by norm_num [Core.submitDiscovery, Core.checkPhase, Core.commitPhase, Core.cooldownHit,
      Core.rateHit, Core.timingHit, Core.travelHit, Core.lookupAssoc, Core.ledgerLookup,
      Core.demoEnv, Core.demoSub, Core.demoLandmark, Core.SysState.empty, List.find?])
    (by norm_num [Core.timingHit, Core.demoEnv, Core.demoSub])
    (by norm_num [Core.submitDiscovery, Core.checkPhase, Core.commitPhase, Core.cooldownHit,
      Core.rateHit, Core.timingHit, Core.travelHit, Core.lookupAssoc, Core.ledgerLookup,
      Core.demoEnv, Core.demoSub, Core.demoLandmark, Core.SysState.empty, List.find?])
  refine ⟨?_, hscen.1, by rw [hc]; rfl⟩
  exact (claim_C6_cooldown.1 Core.demoEnv
    { Core.SysState.empty with lastSub := [(("alice", 1), 0)] } Core.demoSub 10 0
    Core.demoLandmark
    (by norm_num [Core.demoSub]) (by norm_num [Core.demoSub])
    (by norm_num [Core.demoEnv, Core.demoSub])
    (by norm_num [Core.demoEnv, Core.demoSub, Core.demoLandmark])
    (by norm_num [Core.demoEnv, Core.demoSub, Core.demoLandmark])
    (by simp [Core.lookupAssoc, Core.demoSub])).mpr (by norm_num [Core.demoEnv])

/-- The atomic commit preserves the per-pair record-count bound: a fresh
insert can only take a pair from zero records to one, and every other path
leaves the ledger unchanged. -/
theorem countRecords_commit_le_one (env : Core.Env) (st : Core.SysState)
    (sub : Core.Submission) (now : ℤ) (u : String) (m : Nat)
    (h : Core.countRecords st u m ≤ 1) :
    Core.countRecords (Core.commitPhase env st sub now).2 u m ≤ 1 := by
  cases hcat : env.catalog sub.landmarkId with
  | none => simpa [Core.commitPhase, hcat] using h
  | some lm =>
    cases hlk : Core.ledgerLookup st sub.userId sub.landmarkId with
    | some e => simpa [Core.commitPhase, hcat, hlk] using h
    | none =>
      obtain ⟨⟨e, heu, hem, _, _, hledger⟩, _⟩ := commitPhase_fresh env st sub now lm hcat hlk
      unfold Core.countRecords at h ⊢
      rw [hledger, List.filter_cons]
      by_cases hp : (e.userId == u && e.landmarkId == m) = true
      · rw [if_pos hp]
        simp only [Bool.and_eq_true, beq_iff_eq] at hp
        have hu : u = sub.userId := by rw [← hp.1, heu]
        have hm : m = sub.landmarkId := by rw [← hp.2, hem]
        have hnil : st.ledger.filter (fun x => x.userId == u && x.landmarkId == m) = [] := by
          apply List.filter_eq_nil_iff.2
          intro x hx
          have hfn := List.find?_eq_none.1 hlk x hx
          simp only [Bool.and_eq_true, beq_iff_eq] at hfn ⊢
          rw [hu, hm]
          exact hfn
        rw [hnil]
        simp
      · rw [if_neg hp]
        exact h

/-- `submitDiscovery` preserves the per-pair record-count bound. -/
theorem countRecords_submit_le_one (env : Core.Env) (st : Core.SysState)
    (sub : Core.Submission) (now : ℤ) (u : String) (m : Nat)
    (h : Core.countRecords st u m ≤ 1) :
    Core.countRecords (Core.submitDiscovery env st sub now).2 u m ≤ 1 := by
  unfold Core.submitDiscovery
  cases hcp : Core.checkPhase env st sub now with
  | fault c => exact h
  | reject r => exact h
  | pass => exact countRecords_commit_le_one env st sub now u m h

/-- A concurrent batch preserves the per-pair record-count bound: every
serialized commit step preserves it. -/
theorem countRecords_runFrom_le_one (env : Core.Env) (st0 : Core.SysState) (now : ℤ) :
    ∀ (subs : List Core.Submission) (st : Core.SysState) (u : String) (m : Nat),
      Core.countRecords st u m ≤ 1 →
      Core.countRecords (Core.runConcurrentFrom env st0 now st subs).2 u m ≤ 1 := by
  intro subs
  induction subs with
  | nil =>
    intro st u m h
    exact h
  | cons sub rest ih =>
    intro st u m h
    unfold Core.runConcurrentFrom
    cases hcp : Core.checkPhase env st0 sub now with
    | fault c => exact ih st u m h
    | reject r => exact ih st u m h
    | pass => exact ih _ u m (countRecords_commit_le_one env st sub now u m h)

/-- Once the pair's record exists, every further identical concurrent
submission whose snapshot check passed is a read-only replay returning the
stored completion: the whole remaining batch returns copies of it and the
state does not move. -/
theorem runFrom_replicate_replay (env : Core.Env) (st0 : Core.SysState) (now : ℤ)
    (sub : Core.Submission) (lm : Core.Landmark) (st : Core.SysState)
    (e : Core.LedgerEntry)
    (hpass : Core.checkPhase env st0 sub now = Core.CheckResult.pass)
    (hcat : env.catalog sub.landmarkId = some lm)
    (he : Core.ledgerLookup st sub.userId sub.landmarkId = some e) :
    ∀ n : ℕ, Core.runConcurrentFrom env st0 now st (List.replicate n sub) =
      (List.replicate n (Core.Outcome.completed e.result), st) := by
  intro n
  induction n with
  | zero => rfl
  | succ k ih =>
    rw [List.replicate_succ]
    simp only [Core.runConcurrentFrom, hpass, Core.commitPhase, hcat, he, ih]
    simp [List.replicate_succ]

/-- C1: the ledger's uniqueness invariant — at most one DiscoveryRecord
per (user, landmark) pair is preserved by every sequential submission and
by every concurrent batch; and for N = n+1 concurrent identical
submissions racing from a state with no record for the pair, all N receive
the same completion outcome while exactly one record is inserted. -/
theorem claim_C1_uniqueness :
    (∀ (env : Core.Env) (st : Core.SysState) (sub : Core.Submission) (now : ℤ)
      (u : String) (m : Nat),
      Core.countRecords st u m ≤ 1 →
      Core.countRecords (Core.submitDiscovery env st sub now).2 u m ≤ 1) ∧
    (∀ (env : Core.Env) (st0 : Core.SysState) (subs : List Core.Submission) (now : ℤ)
      (u : String) (m : Nat),
      Core.countRecords st0 u m ≤ 1 →
      Core.countRecords (Core.runConcurrent env st0 subs now).2 u m ≤ 1) ∧
    (∀ (env : Core.Env) (st0 : Core.SysState) (sub : Core.Submission) (now : ℤ)
      (lm : Core.Landmark) (n : ℕ),
      Core.checkPhase env st0 sub now = Core.CheckResult.pass →
      env.catalog sub.landmarkId = some lm →
      Core.ledgerLookup st0 sub.userId sub.landmarkId = none →
      ∃ c : Core.Completion,
        (Core.runConcurrent env st0 (List.replicate (n + 1) sub) now).1 =
          List.replicate (n + 1) (Core.Outcome.completed c) ∧
        Core.countRecords (Core.runConcurrent env st0 (List.replicate (n + 1) sub) now).2
          sub.userId sub.landmarkId = 1 ∧
        (Core.runConcurrent env st0 (List.replicate (n + 1) sub) now).2.ledger =
          (Core.commitPhase env st0 sub now).2.ledger) := by
  refine ⟨countRecords_submit_le_one, ?_, ?_⟩
  · intro env st0 subs now u m h
    exact countRecords_runFrom_le_one env st0 now subs st0 u m h
  · intro env st0 sub now lm n hpass hcat hlk
    obtain ⟨⟨e, heu, hem, he, hout, hledger⟩, _⟩ := commitPhase_fresh env st0 sub now lm hcat hlk
    have htail := runFrom_replicate_replay env st0 now sub lm
      (Core.commitPhase env st0 sub now).2 e hpass hcat he n
    have hrc : Core.runConcurrent env st0 (List.replicate (n + 1) sub) now =
        (Core.Outcome.completed e.result ::
            List.replicate n (Core.Outcome.completed e.result),
          (Core.commitPhase env st0 sub now).2) := by
      unfold Core.runConcurrent
      rw [List.replicate_succ]
      simp only [Core.runConcurrentFrom, hpass, htail, hout]
    refine ⟨e.result, ?_, ?_, ?_⟩
    · rw [hrc, List.replicate_succ]
    · rw [hrc]
      unfold Core.countRecords
      rw [hledger, List.filter_cons, if_pos (by simp [heu, hem]), List.filter_eq_nil_iff.2 ?_]
      · simp
      · intro x hx
        have hfn := List.find?_eq_none.1 hlk x hx
        simpa using hfn
    · rw [hrc]

/-- C1 witness: from the empty state, a concrete submission preserves the
bound, and three concurrent identical submissions all receive one and the
same completion while exactly one record is inserted. -/
theorem claim_C1_witness :
    (Core.countRecords (Core.submitDiscovery Core.demoEnv Core.SysState.empty
        Core.demoSub 0).2 "alice" 1 ≤ 1) ∧
    ((Core.runConcurrent Core.demoEnv Core.SysState.empty
        (List.replicate 3 Core.demoSub) 0).1.length = 3) ∧
    Core.countRecords (Core.runConcurrent Core.demoEnv Core.SysState.empty
        (List.replicate 3 Core.demoSub) 0).2 "alice" 1 = 1 := by
  obtain ⟨c, h1, h2, _⟩ := claim_C1_uniqueness.2.2 Core.demoEnv Core.SysState.empty
    Core.demoSub 0 Core.demoLandmark 2
    (by norm_num [Core.checkPhase, Core.cooldownHit, Core.rateHit, Core.timingHit,
      Core.travelHit, Core.lookupAssoc, Core.demoEnv, Core.demoSub, Core.demoLandmark,
      Core.SysState.empty, List.find?])
    (by norm_num [Core.demoEnv, Core.demoSub]) rfl
  refine ⟨claim_C1_uniqueness.1 Core.demoEnv Core.SysState.empty Core.demoSub 0
    "alice" 1 (by decide), ?_, by simpa using h2⟩
  rw [show (3 : ℕ) = 2 + 1 from rfl, h1]
  simp

/-- When no landmark carries the id, `handleDiscoveryComplete` is the
identity on the list. -/
theorem handleDiscoveryComplete_id (landmarkId : Nat) :
    ∀ ls : List UI.Landmark, (∀ l ∈ ls, l.id ≠ landmarkId) →
      UI.handleDiscoveryComplete landmarkId ls = ls := by
  intro ls
  induction ls with
  | nil =>
    intro _
    rfl
  | cons l rest ih =>
    intro hall
    have ih' := ih (fun x hx => hall x (List.mem_cons_of_mem l hx))
    simp only [UI.handleDiscoveryComplete, List.map_cons] at ih' ⊢
    rw [if_neg (hall l (List.mem_cons_self l rest)), ih']

/-- C9: `handleDiscoveryComplete` maps the landmark list pointwise —
every landmark whose id matches gets `discovered := true` with every
other field (name, x, y, category, year, metersAway) unchanged, every
landmark with a different id is entirely unchanged, and when no landmark
carries the id the list is returned equal. -/
theorem claim_C9_discovery_frame :
    ∀ (landmarkId : Nat) (ls : List UI.Landmark),
      List.Forall₂ (fun l l' =>
        l'.id = l.id ∧ l'.name = l.name ∧ l'.x = l.x ∧ l'.y = l.y ∧
        l'.category = l.category ∧ l'.year = l.year ∧ l'.metersAway = l.metersAway ∧
        (l.id = landmarkId → l'.discovered = true) ∧
        (l.id ≠ landmarkId → l'.discovered = l.discovered))
        ls (UI.handleDiscoveryComplete landmarkId ls) ∧
      ((∀ l ∈ ls, l.id ≠ landmarkId) →
        UI.handleDiscoveryComplete landmarkId ls = ls) := by
  intro landmarkId ls
  refine ⟨?_, handleDiscoveryComplete_id landmarkId ls⟩
  induction ls with
  | nil => exact List.Forall₂.nil
  | cons l rest ih =>
    refine List.Forall₂.cons ?_ ih
    by_cases h : l.id = landmarkId
    · simp [UI.handleDiscoveryComplete, h]
    · simp [UI.handleDiscoveryComplete, h]

/-- C9 witness: on the concrete initial landmark list, completing an id
carried by no landmark returns the list unchanged. -/
theorem claim_C9_witness :
    UI.handleDiscoveryComplete 99 UI.initialLandmarks = UI.initialLandmarks :=
  (claim_C9_discovery_frame 99 UI.initialLandmarks).2 (by decide)

/-- `List.find?` returns the element at the first position satisfying the
predicate: every earlier position fails it. -/
theorem find?_first_index {α : Type} (p : α → Bool) :
    ∀ (l : List α) (a : α), l.find? p = some a →
      ∃ i : ℕ, ∃ hi : i < l.length, l.get ⟨i, hi⟩ = a ∧
        ∀ (j : ℕ) (hj : j < l.length), j < i → p (l.get ⟨j, hj⟩) = false := by
  intro l
  induction l with
  | nil =>
    intro a h
    simp at h
  | cons x rest ih =>
    intro a h
    cases hp : p x with
    | true =>
      rw [List.find?_cons_of_pos _ hp] at h
      have hxa : x = a := by simpa using h
      refine ⟨0, by simp, by simpa using hxa, ?_⟩
      intro j hj hj0
      omega
    | false =>
      rw [List.find?_cons_of_neg _ (by simp [hp])] at h
      obtain ⟨i, hi, hget, hbefore⟩ := ih a h
      refine ⟨i + 1, by simpa using Nat.succ_lt_succ hi, by simpa using hget, ?_⟩
      intro j hj hjlt
      cases j with
      | zero => simpa using hp
      | succ k =>
        have hk : k < rest.length := by
          simpa using Nat.lt_of_succ_lt_succ hj
        have hkl : k < i := Nat.lt_of_succ_lt_succ hjlt
        simpa using hbefore k hk hkl

/-- The scanner/selection invariant holds initially. -/
theorem scannerInv_init : UI.scannerInv UI.initialState := by
  refine ⟨?_, ?_, ?_⟩
  · intro h
    simp [UI.initialState] at h
  · intro l hl
    simp [UI.initialState] at hl
  · intro _
    rfl

/-- Every Explore-page interaction preserves the scanner/selection
invariant. -/
theorem scannerInv_step {s s' : UI.ExploreState} (hinv : UI.scannerInv s)
    (hstep : UI.Step s s') : UI.scannerInv s' := by
  obtain ⟨h1, h2, h3⟩ := hinv
  cases hstep with
  | select l hsc hmem =>
    refine ⟨fun h => absurd h (by simp [hsc]), fun l' hl' => ?_, fun _ => hsc⟩
    simp at hl'
    rw [← hl']
    exact hmem
  | deselect =>
    refine ⟨fun _ => rfl, fun l' hl' => ?_, fun hall => h3 hall⟩
    simp at hl'
  | scanFromCard l hsc hsel hdisc =>
    refine ⟨fun _ => rfl, fun l' hl' => ?_, fun hall => ?_⟩
    · simp [UI.launchScanner] at hl'
    · exact absurd (hall l (h2 l hsel)) (by simp [hdisc])
  | arClick hsc =>
    cases hf : s.landmarks.find? (fun l => !l.discovered) with
    | some l =>
      have hs' : UI.arCameraClick s = UI.launchScanner l s := by
        unfold UI.arCameraClick
        rw [hf]
      rw [hs']
      have hmem := List.mem_of_find?_eq_some hf
      have hdisc : l.discovered = false := by
        have := List.find?_some hf
        simpa using this
      refine ⟨fun _ => rfl, fun l' hl' => ?_, fun hall => ?_⟩
      · simp [UI.launchScanner] at hl'
      · exact absurd (hall l hmem) (by simp [hdisc])
    | none =>
      have hs' : UI.arCameraClick s = s := by
        unfold UI.arCameraClick
        rw [hf]
      rw [hs']
      exact ⟨h1, h2, h3⟩
  | discoveryComplete l hsc hscan =>
    refine ⟨fun h => ?_, fun l' hl' => ?_, fun _ => ?_⟩
    · simp [UI.discoveryCompleteState] at h
    · simp only [UI.discoveryCompleteState] at hl'
      rw [h1 hsc] at hl'
      simp at hl'
    · simp [UI.discoveryCompleteState]
  | closeScanner =>
    refine ⟨fun h => by simp at h, fun l' hl' => h2 l' hl', fun _ => rfl⟩
  | openDetail l hsc hsel hdisc =>
    exact ⟨fun h => h1 h, fun l' hl' => h2 l' hl', fun hall => h3 hall⟩
  | closeDetail =>
    exact ⟨fun h => h1 h, fun l' hl' => h2 l' hl', fun hall => h3 hall⟩
  | openMuseum hsc =>
    exact ⟨fun h => h1 h, fun l' hl' => h2 l' hl', fun hall => h3 hall⟩
  | closeMuseum =>
    exact ⟨fun h => h1 h, fun l' hl' => h2 l' hl', fun hall => h3 hall⟩

/-- Every reachable Explore-page state satisfies the scanner/selection
invariant. -/
theorem scannerInv_reachable {s : UI.ExploreState} (h : UI.Reachable s) :
    UI.scannerInv s := by
  induction h with
  | init => exact scannerInv_init
  | step hr hstep ih => exact scannerInv_step ih hstep

/-- C10: clicking the floating AR camera button launches the scanner
targeting the first landmark in array order whose discovered flag is
false; and in every reachable state in which all landmarks are discovered
the click performs no state change and no scanner is shown. -/
theorem claim_C10_ar_button :
    (∀ (s : UI.ExploreState) (l : UI.Landmark),
      s.landmarks.find? (fun x => !x.discovered) = some l →
      UI.arCameraClick s = UI.launchScanner l s ∧
      (UI.arCameraClick s).showScanner = true ∧
      (UI.arCameraClick s).landmarkToScan = some l ∧
      l.discovered = false ∧
      ∃ i : ℕ, ∃ hi : i < s.landmarks.length,
        s.landmarks.get ⟨i, hi⟩ = l ∧
        ∀ (j : ℕ) (hj : j < s.landmarks.length), j < i →
          (s.landmarks.get ⟨j, hj⟩).discovered = true) ∧
    (∀ s : UI.ExploreState, UI.Reachable s → UI.allDiscovered s.landmarks →
      UI.arCameraClick s = s ∧ s.showScanner = false) := by
  constructor
  · intro s l hf
    have heq : UI.arCameraClick s = UI.launchScanner l s := by
      unfold UI.arCameraClick
      rw [hf]
    have hdisc : l.discovered = false := by
      have := List.find?_some hf
      simpa using this
    obtain ⟨i, hi, hget, hbefore⟩ := find?_first_index _ s.landmarks l hf
    refine ⟨heq, by rw [heq]; rfl, by rw [heq]; rfl, hdisc, i, hi, hget, ?_⟩
    intro j hj hjlt
    have hb := hbefore j hj hjlt
    simpa using hb
  · intro s hreach hall
    have hinv := scannerInv_reachable hreach
    have hsc := hinv.2.2 hall
    have hf : s.landmarks.find? (fun x => !x.discovered) = none := by
      apply List.find?_eq_none.2
      intro x hx
      simp [hall x hx]
    have heq : UI.arCameraClick s = s := by
      unfold UI.arCameraClick
      rw [hf]
    exact ⟨heq, hsc⟩

/-- C10 witness: on the initial state the button launches the scanner on
Old Town Bridge (the first undiscovered landmark in array order), and on
the concrete reachable state in which all five landmarks have been
discovered the click is a no-op and the scanner is closed. -/
theorem claim_C10_witness :
    UI.arCameraClick UI.initialState =
      UI.launchScanner UI.oldTownBridge UI.initialState ∧
    UI.arCameraClick UI.demoFinal = UI.demoFinal ∧
    UI.demoFinal.showScanner = false := by
  have h0 : UI.Reachable UI.initialState := UI.Reachable.init
  have h1 := UI.Reachable.step h0 (UI.Step.arClick UI.initialState rfl)
  have h2 := UI.Reachable.step h1
    (UI.Step.discoveryComplete _ UI.oldTownBridge rfl rfl)
  have h3 := UI.Reachable.step h2
    (UI.Step.arClick _ rfl)
  have h4 := UI.Reachable.step h3
    (UI.Step.discoveryComplete _ UI.rockheimMuseum rfl rfl)
  have h5 := UI.Reachable.step h4
    (UI.Step.arClick _ rfl)
  have h6 := UI.Reachable.step h5
    (UI.Step.discoveryComplete _ UI.stiftsgaarden rfl rfl)
  have hreach : UI.Reachable UI.demoFinal := h6
  refine ⟨(claim_C10_ar_button.1 UI.initialState UI.oldTownBridge rfl).1, ?_, ?_⟩
  · exact (claim_C10_ar_button.2 UI.demoFinal hreach (by decide)).1
  · exact (claim_C10_ar_button.2 UI.demoFinal hreach (by decide)).2
